import Mathlib

/-!
# Bus Booking backend: shallow embedding and verification

This file embeds the core logic of the repository (src/main.py, with the record
shapes of src/schemas.py) into Lean and proves or refutes the documented
properties of the availability calculator, the booking admission service, the
trip search service and the bookings listing.

Modelling conventions:
  - MongoDB documents become Lean structures; a field the code reads with a
    defaulting accessor (`doc.get(field, default)`) becomes an `Option` field,
    `none` meaning the field is absent from the stored document.
  - The document store (database.py, which is not part of src/) is modelled
    from the spec, section 6: `insert` appends a record and returns a freshly
    generated identifier, `findMany` filters a collection; the store is, per
    spec section 5, either available or entirely unavailable for a call.
  - Endpoint outcomes are explicit values: a success payload, an
    `HTTPException` (status code plus detail string), or a store exception
    propagated unchanged to the caller.
-/

namespace BusBooking

/-- A stored route document (collection "busroute", shape from schemas.py). -/
structure Busroute where
  id : String
  origin : String
  destination : String
  duration_minutes : Nat
deriving DecidableEq

/-- A stored trip document (collection "trip").  `capacity` is `none` when the
document lacks the field: main.py reads it as `int(trip.get("capacity", 0))`.
The price field (a float the core logic never reads) is omitted. -/
structure Trip where
  id : String
  route_id : String
  travel_date : String
  departure_time : String
  bus_company : String
  capacity : Option Nat
deriving DecidableEq

/-- A stored booking document (collection "booking").  `seats` is `none` when
the field is absent (main.py reads `b.get("seats", 0)`); `status` is `none`
when the stored document has no status field. -/
structure Booking where
  id : String
  trip_id : String
  full_name : String
  email : String
  phone : String
  seats : Option Nat
  status : Option String
deriving DecidableEq

/-- The body of POST /api/book (class BookingRequest in main.py).  The API
layer validates `seats` into 1..10; the embedding carries the raw number. -/
structure BookingRequest where
  trip_id : String
  full_name : String
  email : String
  phone : String
  seats : Nat
deriving DecidableEq

/-- The whole backing state.  `configured` is `db is not None`; `reachable`
says whether store calls succeed (spec section 5: the store is treated as
either available or entirely unavailable for a given call).  `nextId` feeds
the generated identifiers of `insert` (modelled from the spec, section 6,
since database.py is not under src/). -/
structure Store where
  configured : Bool
  reachable : Bool
  routes : List Busroute
  trips : List Trip
  bookings : List Booking
  nextId : Nat
deriving DecidableEq

/-- Result of an endpoint call: a success value, an HTTPException with status
code and detail, or an exception raised by the store and propagated unchanged
(the path has no handler for it). -/
inductive Outcome (α : Type) where
  | ok : α → Outcome α
  | httpError : Nat → String → Outcome α
  | storeFailure : Outcome α
deriving DecidableEq

/-- Modelled from bson (an external library): `ObjectId(s)` succeeds exactly
on 24-character hexadecimal strings and raises `InvalidId` otherwise. -/
def isHexDigit (c : Char) : Bool :=
  (('0' ≤ c) && (c ≤ '9')) || (('a' ≤ c) && (c ≤ 'f')) || (('A' ≤ c) && (c ≤ 'F'))

/-- Validity of a store-native identifier string, per bson.ObjectId. -/
def isValidObjectId (s : String) : Bool :=
  s.length == 24 && s.toList.all isHexDigit

/-- `sum(int(b.get("seats", 0)) for b in bookings)` (main.py lines 156, 187). -/
def seatsBooked (bookings : List Booking) : Nat :=
  (bookings.map (fun b => b.seats.getD 0)).sum

/-- The availability calculator of main.py lines 157 and 188:
`max(0, int(trip.get("capacity", 0)) - seats_booked)`. -/
def availableSeats (capacity : Option Nat) (bookings : List Booking) : Int :=
  max 0 ((capacity.getD 0 : Int) - (seatsBooked bookings : Int))

/-- The availability formula as the spec words it (sections 4.1 and 8), for
comparison with `availableSeats`: max(0, T.capacity − Σ b.seats), a missing
seat count contributing zero. -/
def specAvailableSeats (capacity : Option Nat) (bookings : List Booking) : Int :=
  max 0 ((capacity.getD 0 : Int) - (bookings.map (fun b => (b.seats.getD 0 : Int))).sum)

/-- Seats booked against one trip: the store query
`get_documents("booking", filter by trip_id)` followed by the summation. -/
def seatsFor (tripId : String) (bookings : List Booking) : Nat :=
  seatsBooked (bookings.filter (fun b => b.trip_id == tripId))

lemma seatsBooked_cast (bs : List Booking) :
    (seatsBooked bs : Int) = (bs.map (fun b => (b.seats.getD 0 : Int))).sum := by
  induction bs with
  | nil => simp [seatsBooked]
  | cons b bs ih =>
      simp only [seatsBooked, List.map_cons, List.sum_cons] at ih ⊢
      push_cast
      rw [← ih]
      push_cast
      ring

/-- C2: the computed availability equals max(0, capacity − Σ seats), where a
missing seats field contributes zero, and the result is never negative. -/
theorem availability_matches_spec_formula (capacity : Option Nat) (bs : List Booking) :
    availableSeats capacity bs = specAvailableSeats capacity bs ∧
    0 ≤ availableSeats capacity bs := by
  constructor
  · simp [availableSeats, specAvailableSeats, seatsBooked_cast]
  · exact le_max_left 0 _

/-- The trip lookup of book_trip (main.py lines 177-183):
`db["trip"].find_one({"_id": ObjectId(payload.trip_id)})` wrapped in a bare
try/except.  A malformed identifier (ObjectId raises) and a store failure
while unreachable are both caught and yield `None`. -/
def lookupTrip (st : Store) (tripId : String) : Option Trip :=
  if st.reachable && isValidObjectId tripId then
    st.trips.find? (fun t => t.id == tripId)
  else none

/-- Response body of a successful POST /api/book. -/
structure BookResponse where
  status : String
  booking_id : String
deriving DecidableEq

/-- The booking document inserted by book_trip (main.py line 192):
`create_document("booking", payload.model_dump())`.  BookingRequest has no
status field, so the dump — and hence the stored document — has none; the
generated identifier is modelled from the spec (section 6) as the store is
not under src/. -/
def newBookingOf (st : Store) (p : BookingRequest) : Booking :=
  { id := toString st.nextId, trip_id := p.trip_id, full_name := p.full_name,
    email := p.email, phone := p.phone, seats := some p.seats, status := none }

/-- book_trip (main.py lines 171-193): db-configured check, trip lookup,
availability check, conditional insert.  Returns the outcome together with
the store afterwards. -/
def bookTrip (st : Store) (p : BookingRequest) : Outcome BookResponse × Store :=
  if st.configured = false then
    (Outcome.httpError 500 "Database not configured", st)
  else
    match lookupTrip st p.trip_id with
    | none => (Outcome.httpError 404 "Trip not found", st)
    | some trip =>
      if st.reachable = false then (Outcome.storeFailure, st)
      else
        let available := availableSeats trip.capacity
          (st.bookings.filter (fun b => b.trip_id == p.trip_id))
        if (p.seats : Int) > available then
          (Outcome.httpError 400 ("Only " ++ toString available ++ " seats available"), st)
        else
          (Outcome.ok { status := "confirmed", booking_id := toString st.nextId },
           { st with bookings := st.bookings ++ [newBookingOf st p],
                     nextId := st.nextId + 1 })

/-- Anchored case-insensitive pattern matching over character lists.
Modelled from the store collaborator (MongoDB `$regex` with `$options: "i"`,
main.py line 143), restricted to the PCRE fragment in which the dot is the
only metacharacter that occurs: a dot matches any single character, every
other character matches itself up to ASCII case. -/
def regexCharsMatchCI : List Char → List Char → Bool
  | [], cs => cs.isEmpty
  | _ :: _, [] => false
  | p :: ps, c :: cs => (p == '.' || p.toLower == c.toLower) && regexCharsMatchCI ps cs

/-- Whole-string anchored case-insensitive regex match, `^pattern$` with
option `i`, on the fragment described at `regexCharsMatchCI`. -/
def regexMatchCI (pattern s : String) : Bool :=
  regexCharsMatchCI pattern.toList s.toList

/-- Case-insensitive exact string equality: the spec's notion of matching
city names (sections 4.2 and 8). -/
def ciEq (a b : String) : Bool :=
  a.toList.map Char.toLower == b.toList.map Char.toLower

/-- Characters that carry meaning in a PCRE pattern. -/
def regexMetaChars : List Char :=
  ['.', '*', '+', '?', '[', ']', '(', ')', '{', '}', '|', '^', '$', '\\']

/-- The string contains no regex metacharacter, so it reads as a literal. -/
def hasNoRegexMeta (s : String) : Bool :=
  s.toList.all (fun c => !(regexMetaChars.contains c))

/-- The route query of search_trips (main.py line 143): origin and
destination are interpolated raw into anchored `$regex` filters with the
case-insensitive option. -/
def matchedRoutes (origin destination : String) (routes : List Busroute) : List Busroute :=
  routes.filter (fun r => regexMatchCI origin r.origin && regexMatchCI destination r.destination)

/-- One enriched result of search_trips (main.py lines 152-167): the trip
document plus `available_seats` and, when the parent route is found among the
matched routes, its origin, destination and duration. -/
structure TripResult where
  id : String
  route_id : String
  travel_date : String
  departure_time : String
  bus_company : String
  capacity : Option Nat
  available_seats : Int
  origin : Option String
  destination : Option String
  duration_minutes : Option Nat
deriving DecidableEq

/-- The per-trip enrichment step of search_trips (main.py lines 153-167):
fetch the trip's bookings, compute availability, copy the parent route's
fields when it is found among the matched routes. -/
def enrichTrip (routes : List Busroute) (bookings : List Booking) (trip : Trip) : TripResult :=
  let tripBookings := bookings.filter (fun b => b.trip_id == trip.id)
  let available := availableSeats trip.capacity tripBookings
  let route := routes.find? (fun r => r.id == trip.route_id)
  { id := trip.id, route_id := trip.route_id, travel_date := trip.travel_date,
    departure_time := trip.departure_time, bus_company := trip.bus_company,
    capacity := trip.capacity,
    available_seats := available,
    origin := route.map Busroute.origin,
    destination := route.map Busroute.destination,
    duration_minutes := route.map Busroute.duration_minutes }

/-- Query parameters of GET /api/trips/search; the travel date is carried in
its ISO form, which is what the code compares (main.py line 149). -/
structure SearchQuery where
  origin : String
  destination : String
  travel_date : String
deriving DecidableEq

/-- search_trips (main.py lines 136-169).  The second component logs, in
order, the collection name of every store query the call performs. -/
def searchTrips (st : Store) (q : SearchQuery) : Outcome (List TripResult) × List String :=
  if st.configured = false then (Outcome.httpError 500 "Database not configured", [])
  else if st.reachable = false then (Outcome.storeFailure, ["busroute"])
  else
    let routes := matchedRoutes q.origin q.destination st.routes
    if (routes.map Busroute.id).isEmpty then (Outcome.ok [], ["busroute"])
    else
      let route_ids := routes.map Busroute.id
      let trips := st.trips.filter
        (fun t => route_ids.contains t.route_id && t.travel_date == q.travel_date)
      (Outcome.ok (trips.map (enrichTrip routes st.bookings)),
       "busroute" :: "trip" :: trips.map (fun _ => "booking"))

/-- list_bookings (main.py lines 195-199):
`filt = {"email": email} if email else {}` — None and the empty string are
both falsy, so both produce the unfiltered query.  main.py performs no
db-configured check here; the failure of get_documents on an unconfigured or
unreachable store is modelled from the spec (section 7: ServiceUnavailable,
store unreachable or unconfigured), database.py not being under src/. -/
def listBookings (st : Store) (email : Option String) : Outcome (List Booking) :=
  if st.configured && st.reachable then
    match email with
    | none => Outcome.ok st.bookings
    | some e =>
        if e = "" then Outcome.ok st.bookings
        else Outcome.ok (st.bookings.filter (fun b => b.email == e))
  else Outcome.storeFailure

/-- A sequence of booking requests applied one after the other (the claims'
notion of reachable store states). -/
def applyBookings (st : Store) (ops : List BookingRequest) : Store :=
  ops.foldl (fun s p => (bookTrip s p).2) st

/-- A freshly set up store: some routes and trips, no bookings yet. -/
def initialStore (routes : List Busroute) (trips : List Trip) : Store :=
  { configured := true, reachable := true, routes := routes, trips := trips,
    bookings := [], nextId := 0 }

lemma lookupTrip_eq_some {st : Store} {tripId : String} {t : Trip}
    (h : lookupTrip st tripId = some t) :
    st.reachable = true ∧ isValidObjectId tripId = true ∧
      st.trips.find? (fun x => x.id == tripId) = some t := by
  unfold lookupTrip at h
  by_cases hc : st.reachable && isValidObjectId tripId
  · rw [if_pos hc] at h
    exact ⟨(Bool.and_eq_true _ _ ▸ hc).1, (Bool.and_eq_true _ _ ▸ hc).2, h⟩
  · rw [if_neg hc] at h
    exact absurd h (by simp)

lemma bookTrip_notFound (st : Store) (p : BookingRequest)
    (hcfg : st.configured = true) (hl : lookupTrip st p.trip_id = none) :
    bookTrip st p = (Outcome.httpError 404 "Trip not found", st) := by
  simp [bookTrip, hcfg, hl]

lemma bookTrip_over (st : Store) (p : BookingRequest) (trip : Trip)
    (hcfg : st.configured = true) (hl : lookupTrip st p.trip_id = some trip)
    (hover : availableSeats trip.capacity
        (st.bookings.filter (fun b => b.trip_id == p.trip_id)) < (p.seats : Int)) :
    bookTrip st p = (Outcome.httpError 400
      ("Only " ++ toString (availableSeats trip.capacity
          (st.bookings.filter (fun b => b.trip_id == p.trip_id))) ++ " seats available"),
      st) := by
  obtain ⟨hre, _, _⟩ := lookupTrip_eq_some hl
  simp [bookTrip, hcfg, hl, hre, hover]

lemma bookTrip_fits (st : Store) (p : BookingRequest) (trip : Trip)
    (hcfg : st.configured = true) (hl : lookupTrip st p.trip_id = some trip)
    (hfits : (p.seats : Int) ≤ availableSeats trip.capacity
        (st.bookings.filter (fun b => b.trip_id == p.trip_id))) :
    bookTrip st p = (Outcome.ok { status := "confirmed", booking_id := toString st.nextId },
      { st with bookings := st.bookings ++ [newBookingOf st p],
                nextId := st.nextId + 1 }) := by
  obtain ⟨hre, _, _⟩ := lookupTrip_eq_some hl
  simp [bookTrip, hcfg, hl, hre, not_lt.mpr hfits]

lemma bookTrip_trips (st : Store) (p : BookingRequest) :
    (bookTrip st p).2.trips = st.trips := by
  cases hcfg : st.configured with
  | false => simp [bookTrip, hcfg]
  | true =>
    rcases hl : lookupTrip st p.trip_id with _ | trip
    · simp [bookTrip, hcfg, hl]
    · obtain ⟨hre, _, _⟩ := lookupTrip_eq_some hl
      by_cases hover : availableSeats trip.capacity
          (st.bookings.filter (fun b => b.trip_id == p.trip_id)) < (p.seats : Int)
      · simp [bookTrip_over st p trip hcfg hl hover]
      · simp [bookTrip_fits st p trip hcfg hl (not_lt.mp hover)]

lemma seatsFor_append (tid : String) (bs : List Booking) (b : Booking) :
    seatsFor tid (bs ++ [b]) =
      seatsFor tid bs + (if b.trip_id == tid then b.seats.getD 0 else 0) := by
  simp only [seatsFor, seatsBooked, List.filter_append, List.filter_cons,
    List.filter_nil, List.map_append, List.sum_append]
  split <;> simp

/-- The section-3 invariant: no trip has more seats booked against it than
its stored capacity (a trip without a capacity field counting as capacity 0,
which is how every read of the field treats it). -/
def CapacityInvariant (st : Store) : Prop :=
  ∀ t ∈ st.trips, seatsFor t.id st.bookings ≤ t.capacity.getD 0

lemma capacityInvariant_step (st : Store) (p : BookingRequest)
    (hnd : (st.trips.map Trip.id).Nodup) (hinv : CapacityInvariant st) :
    CapacityInvariant (bookTrip st p).2 := by
  cases hcfg : st.configured with
  | false => simpa [bookTrip, hcfg] using hinv
  | true =>
    rcases hl : lookupTrip st p.trip_id with _ | trip
    · simpa [bookTrip, hcfg, hl] using hinv
    · obtain ⟨hre, hvalid, hfind⟩ := lookupTrip_eq_some hl
      by_cases hover : availableSeats trip.capacity
          (st.bookings.filter (fun b => b.trip_id == p.trip_id)) < (p.seats : Int)
      · rw [bookTrip_over st p trip hcfg hl hover]
        exact hinv
      · rw [bookTrip_fits st p trip hcfg hl (not_lt.mp hover)]
        have htripmem : trip ∈ st.trips := List.mem_of_find?_eq_some hfind
        have htripid : trip.id = p.trip_id := by
          have := List.find?_some hfind
          simpa using this
        intro t ht
        simp only at ht
        rw [seatsFor_append]
        by_cases hid : t.id = p.trip_id
        · have hteq : t = trip :=
            List.inj_on_of_nodup_map hnd ht htripmem (by rw [hid, htripid])
          have hbq : (newBookingOf st p).trip_id == t.id := by
            simp [newBookingOf, hid]
          rw [if_pos hbq]
          have hbase : seatsFor t.id st.bookings ≤ t.capacity.getD 0 := hinv t ht
          have hfits := not_lt.mp hover
          have hsf : st.bookings.filter (fun b => b.trip_id == p.trip_id) =
              st.bookings.filter (fun b => b.trip_id == t.id) := by rw [hid]
          rw [hsf] at hfits
          have hcap : trip.capacity = t.capacity := by rw [hteq]
          rw [hcap] at hfits
          simp only [availableSeats, seatsFor, newBookingOf] at hfits hbase ⊢
          have h0 : (0 : Int) ≤ (t.capacity.getD 0 : Int) -
              (seatsBooked (st.bookings.filter (fun b => b.trip_id == t.id)) : Int) := by
            omega
          rw [max_eq_right h0] at hfits
          simp only [Option.getD_some]
          omega
        · have hbq : ((newBookingOf st p).trip_id == t.id) = false := by
            simp [newBookingOf]
            exact fun h => hid h.symm
          rw [if_neg (by simp [hbq])]
          simpa using hinv t ht

lemma capacityInvariant_fold (ops : List BookingRequest) (st : Store)
    (hnd : (st.trips.map Trip.id).Nodup) (hinv : CapacityInvariant st) :
    CapacityInvariant (applyBookings st ops) ∧ (applyBookings st ops).trips = st.trips := by
  induction ops generalizing st with
  | nil => exact ⟨hinv, rfl⟩
  | cons p ops ih =>
    have hts := bookTrip_trips st p
    have hstep := capacityInvariant_step st p hnd hinv
    have := ih (bookTrip st p).2 (by rw [hts]; exact hnd) hstep
    refine ⟨this.1, ?_⟩
    rw [show applyBookings st (p :: ops) = applyBookings (bookTrip st p).2 ops from rfl,
      this.2, hts]

/-- C1: starting from a store holding any routes and trips (with the store's
uniqueness of document identifiers) and no bookings, after any sequence of
booking operations the seats booked against a trip never exceed its
capacity. -/
theorem booked_seats_never_exceed_capacity
    (routes : List Busroute) (trips : List Trip) (ops : List BookingRequest)
    (hnd : (trips.map Trip.id).Nodup) (t : Trip) (ht : t ∈ trips) :
    seatsFor t.id (applyBookings (initialStore routes trips) ops).bookings ≤
      t.capacity.getD 0 := by
  have hinit : CapacityInvariant (initialStore routes trips) := by
    intro x hx
    simp [seatsFor, seatsBooked, initialStore]
  have h := capacityInvariant_fold ops (initialStore routes trips) hnd hinit
  exact h.1 t (by rw [h.2]; exact ht)

lemma seatsBooked_append_single (bs : List Booking) (b : Booking) :
    seatsBooked (bs ++ [b]) = seatsBooked bs + b.seats.getD 0 := by
  simp [seatsBooked]

lemma max_zero_sub_eq (c sb s : Int) (hs : 1 ≤ s) (hfit : s ≤ max 0 (c - sb)) :
    max 0 (c - (sb + s)) = max 0 (c - sb) - s := by
  have h1 : s ≤ c - sb := by
    rcases max_cases 0 (c - sb) with ⟨heq, hle⟩ | ⟨heq, hle⟩
    · rw [heq] at hfit; omega
    · rw [heq] at hfit; omega
  rw [max_eq_right (by omega : (0 : Int) ≤ c - (sb + s)),
    max_eq_right (by omega : (0 : Int) ≤ c - sb)]
  ring

/-- C3 (amended): booking an existing trip for 1 ≤ seats ≤ 10 with the seats
within current availability succeeds: exactly one booking document is
appended, carrying the passenger data and the requested seats but no status
field; the response reports status "confirmed" with the new document's
identifier; and the trip's availability afterwards is exactly the requested
seats lower than before. -/
theorem booking_within_availability_succeeds
    (st : Store) (p : BookingRequest) (trip : Trip)
    (hcfg : st.configured = true)
    (hl : lookupTrip st p.trip_id = some trip)
    (hs1 : 1 ≤ p.seats) (_hs10 : p.seats ≤ 10)
    (hfits : (p.seats : Int) ≤ availableSeats trip.capacity
        (st.bookings.filter (fun b => b.trip_id == p.trip_id))) :
    (bookTrip st p).1 = Outcome.ok
        { status := "confirmed", booking_id := (newBookingOf st p).id } ∧
    (bookTrip st p).2.bookings = st.bookings ++ [newBookingOf st p] ∧
    (newBookingOf st p).status = none ∧
    (newBookingOf st p).seats = some p.seats ∧
    availableSeats trip.capacity
        ((bookTrip st p).2.bookings.filter (fun b => b.trip_id == p.trip_id)) =
      availableSeats trip.capacity
        (st.bookings.filter (fun b => b.trip_id == p.trip_id)) - (p.seats : Int) := by
  rw [bookTrip_fits st p trip hcfg hl hfits]
  refine ⟨rfl, rfl, rfl, rfl, ?_⟩
  have hfilter : (st.bookings ++ [newBookingOf st p]).filter
      (fun b => b.trip_id == p.trip_id) =
        st.bookings.filter (fun b => b.trip_id == p.trip_id) ++ [newBookingOf st p] := by
    simp [List.filter_append, newBookingOf]
  show availableSeats trip.capacity
      ((st.bookings ++ [newBookingOf st p]).filter (fun b => b.trip_id == p.trip_id)) = _
  rw [hfilter]
  simp only [availableSeats, seatsBooked_append_single]
  have hseats : (newBookingOf st p).seats.getD 0 = p.seats := rfl
  rw [hseats]
  push_cast
  push_cast [availableSeats] at hfits
  exact max_zero_sub_eq _ _ _ (by exact_mod_cast hs1) hfits

/-- C4: requesting strictly more seats than a trip's current availability is
rejected with a client-side error whose message carries the number of seats
actually available, and the store is left unchanged. -/
theorem overbooking_rejected (st : Store) (p : BookingRequest) (trip : Trip)
    (hcfg : st.configured = true)
    (hl : lookupTrip st p.trip_id = some trip)
    (hover : availableSeats trip.capacity
        (st.bookings.filter (fun b => b.trip_id == p.trip_id)) < (p.seats : Int)) :
    bookTrip st p = (Outcome.httpError 400
      ("Only " ++ toString (availableSeats trip.capacity
          (st.bookings.filter (fun b => b.trip_id == p.trip_id))) ++ " seats available"),
      st) :=
  bookTrip_over st p trip hcfg hl hover

/-- C5: a trip identifier that is malformed as a store-native identifier, or
that no stored trip carries, makes the booking fail with 404 Trip not found —
not a fatal error — and leaves the store unchanged. -/
theorem unknown_trip_not_found (st : Store) (p : BookingRequest)
    (hcfg : st.configured = true)
    (h : isValidObjectId p.trip_id = false ∨ ∀ t ∈ st.trips, t.id ≠ p.trip_id) :
    bookTrip st p = (Outcome.httpError 404 "Trip not found", st) := by
  apply bookTrip_notFound st p hcfg
  unfold lookupTrip
  rcases h with h | h
  · simp [h]
  · cases hre : st.reachable with
    | false => simp
    | true =>
      simp only [hre, Bool.true_and]
      by_cases hv : isValidObjectId p.trip_id
      · rw [if_pos hv]
        exact List.find?_eq_none.mpr (fun t ht => by simp [h t ht])
      · rw [if_neg hv]

lemma list_beq_cons (a b : Char) (l m : List Char) :
    ((a :: l : List Char) == b :: m) = (a == b && l == m) := rfl

lemma noMeta_no_dot {s : String} (h : hasNoRegexMeta s = true) :
    ∀ c ∈ s.toList, c ≠ '.' := by
  intro c hc heq
  subst heq
  have hall := List.all_eq_true.mp h _ hc
  simp only [regexMetaChars] at hall
  simp at hall

lemma regexChars_eq_of_noDot : ∀ (ps cs : List Char), (∀ p ∈ ps, p ≠ '.') →
    regexCharsMatchCI ps cs = (ps.map Char.toLower == cs.map Char.toLower)
  | [], [], _ => by simp [regexCharsMatchCI]
  | [], _ :: _, _ => by simp [regexCharsMatchCI]
  | _ :: _, [], _ => by simp [regexCharsMatchCI]
  | p :: ps, c :: cs, h => by
    have hp : (p == '.') = false :=
      beq_eq_false_iff_ne.mpr (h p (List.mem_cons_self _ _))
    have ih := regexChars_eq_of_noDot ps cs (fun q hq => h q (List.mem_cons_of_mem _ hq))
    simp only [regexCharsMatchCI, hp, Bool.false_or, List.map_cons, list_beq_cons, ih]

lemma regexMatchCI_eq_ciEq {p : String} (hp : hasNoRegexMeta p = true) (s : String) :
    regexMatchCI p s = ciEq p s :=
  regexChars_eq_of_noDot _ _ (noMeta_no_dot hp)

/-- C6 (amended): when the origin and destination strings contain no regex
metacharacter, the route selection of search_trips is exactly the
case-insensitive exact-equality filter.  (In general the raw inputs are
interpolated into anchored case-insensitive regular expressions, so a
metacharacter in the input acts as regex syntax, not as a literal.) -/
theorem search_matches_ci_equality_without_metacharacters
    (o d : String) (routes : List Busroute)
    (ho : hasNoRegexMeta o = true) (hd : hasNoRegexMeta d = true) :
    matchedRoutes o d routes =
      routes.filter (fun r => ciEq o r.origin && ciEq d r.destination) := by
  unfold matchedRoutes
  apply List.filter_congr
  intro r _
  rw [regexMatchCI_eq_ciEq ho, regexMatchCI_eq_ciEq hd]

/-- C7: when no route matches the requested origin and destination,
search_trips returns an empty trip list and the only store query performed is
the route query — neither the trip nor the booking collection is touched. -/
theorem no_route_match_short_circuits (st : Store) (q : SearchQuery)
    (hcfg : st.configured = true) (hre : st.reachable = true)
    (h : matchedRoutes q.origin q.destination st.routes = []) :
    searchTrips st q = (Outcome.ok [], ["busroute"]) := by
  simp [searchTrips, hcfg, hre, h]

/-- C8 (amended): with the store unreachable, search_trips propagates the
store failure unchanged, but book_trip's bare try/except around the trip
lookup swallows it and reports 404 Trip not found instead, leaving the store
unchanged. -/
theorem unreachable_store_behavior (st : Store) (q : SearchQuery) (p : BookingRequest)
    (hcfg : st.configured = true) (hre : st.reachable = false) :
    (searchTrips st q).1 = Outcome.storeFailure ∧
    bookTrip st p = (Outcome.httpError 404 "Trip not found", st) := by
  constructor
  · simp [searchTrips, hcfg, hre]
  · exact bookTrip_notFound st p hcfg (by simp [lookupTrip, hre])

/-- C9: listing bookings with an empty-string email equals listing with no
email at all — both return every stored booking — and only a non-empty email
filters, by exact equality on the email field. -/
theorem empty_email_lists_all_bookings (st : Store) (e : String)
    (hcfg : st.configured = true) (hre : st.reachable = true) (he : ¬e = "") :
    listBookings st (some "") = listBookings st none ∧
    listBookings st none = Outcome.ok st.bookings ∧
    listBookings st (some e) = Outcome.ok (st.bookings.filter (fun b => b.email == e)) := by
  refine ⟨?_, ?_, ?_⟩ <;> simp [listBookings, hcfg, hre, he]

lemma availableSeats_none (bs : List Booking) : availableSeats none bs = 0 := by
  simp only [availableSeats, Option.getD_none]
  exact max_eq_left (by omega)

/-- C10: a trip stored without a capacity field is treated as capacity 0 —
search reports its available_seats as 0, and any booking request for at
least one seat against it is rejected with the capacity error (message
reporting 0 available), not a fatal error, leaving the store unchanged. -/
theorem missing_capacity_means_zero_availability
    (st : Store) (p : BookingRequest) (trip : Trip)
    (routes : List Busroute) (bs : List Booking)
    (hcfg : st.configured = true)
    (hl : lookupTrip st p.trip_id = some trip)
    (hcap : trip.capacity = none)
    (hs : 1 ≤ p.seats) :
    (enrichTrip routes bs trip).available_seats = 0 ∧
    bookTrip st p = (Outcome.httpError 400 "Only 0 seats available", st) := by
  constructor
  · simp [enrichTrip, hcap, availableSeats_none]
  · have hover : availableSeats trip.capacity
        (st.bookings.filter (fun b => b.trip_id == p.trip_id)) < (p.seats : Int) := by
      rw [hcap, availableSeats_none]
      exact_mod_cast hs
    rw [bookTrip_over st p trip hcfg hl hover, hcap, availableSeats_none]
    rfl

/-! Concrete fixtures, mirroring the seeded sample data of main.py. -/

/-- The New York → Boston sample route. -/
def route0 : Busroute :=
  { id := "r1", origin := "New York", destination := "Boston", duration_minutes := 240 }

/-- A seeded trip on route0 with capacity 40. -/
def trip0 : Trip :=
  { id := "aaaaaaaaaaaaaaaaaaaaaaaa", route_id := "r1", travel_date := "2026-01-01",
    departure_time := "08:00", bus_company := "SwiftBus", capacity := some 40 }

/-- A healthy store holding route0 and trip0 and no bookings. -/
def store0 : Store :=
  { configured := true, reachable := true, routes := [route0], trips := [trip0],
    bookings := [], nextId := 0 }

/-- A valid booking request for 5 seats on trip0. -/
def req0 : BookingRequest :=
  { trip_id := "aaaaaaaaaaaaaaaaaaaaaaaa", full_name := "Ada Lovelace",
    email := "ada@example.com", phone := "555-0100", seats := 5 }

/-- A request for more seats than trip0 has. -/
def reqBig : BookingRequest :=
  { trip_id := "aaaaaaaaaaaaaaaaaaaaaaaa", full_name := "Grace Hopper",
    email := "grace@example.com", phone := "555-0101", seats := 50 }

/-- A request whose trip identifier is not a valid store identifier. -/
def reqBad : BookingRequest :=
  { trip_id := "zz", full_name := "Alan Turing",
    email := "alan@example.com", phone := "555-0102", seats := 2 }

/-- store0 with the store unreachable. -/
def storeDown : Store :=
  { configured := true, reachable := false, routes := [route0], trips := [trip0],
    bookings := [], nextId := 0 }

/-- A route whose origin "ab" is matched by the regex built from the raw
query string "a." although the two strings are not equal in any casing. -/
def routeX : Busroute :=
  { id := "r2", origin := "ab", destination := "cd", duration_minutes := 100 }

/-- A trip on routeX. -/
def tripX : Trip :=
  { id := "bbbbbbbbbbbbbbbbbbbbbbbb", route_id := "r2", travel_date := "2026-01-01",
    departure_time := "10:00", bus_company := "Pacific Coaches", capacity := some 10 }

/-- A healthy store holding routeX and tripX. -/
def storeX : Store :=
  { configured := true, reachable := true, routes := [routeX], trips := [tripX],
    bookings := [], nextId := 0 }

/-- A trip document stored without a capacity field. -/
def tripNoCap : Trip :=
  { id := "cccccccccccccccccccccccc", route_id := "r1", travel_date := "2026-01-01",
    departure_time := "09:00", bus_company := "MetroLines", capacity := none }

/-- A healthy store holding tripNoCap. -/
def storeNoCap : Store :=
  { configured := true, reachable := true, routes := [route0], trips := [tripNoCap],
    bookings := [], nextId := 0 }

/-- A one-seat request against tripNoCap. -/
def reqNoCap : BookingRequest :=
  { trip_id := "cccccccccccccccccccccccc", full_name := "Mary Shelley",
    email := "mary@example.com", phone := "555-0103", seats := 1 }

/-- Search query with a dot in the origin. -/
def qDotOrigin : SearchQuery :=
  { origin := "a.", destination := "cd", travel_date := "2026-01-01" }

/-- Search query for an unserved city pair. -/
def qNoMatch : SearchQuery :=
  { origin := "Paris", destination := "Lyon", travel_date := "2026-01-01" }

/-- Search query for the seeded New York → Boston route. -/
def qNYBos : SearchQuery :=
  { origin := "New York", destination := "Boston", travel_date := "2026-01-01" }

/-! Counterexamples. -/

/-- C3 counterexample: a successful booking on a fresh 40-seat trip stores a
booking document with no status field (its status reads as `none`, not
"confirmed"); only the response body carries status "confirmed". -/
theorem stored_booking_lacks_status_counterexample :
    (bookTrip store0 req0).1 = Outcome.ok { status := "confirmed", booking_id := "0" } ∧
    ((bookTrip store0 req0).2.bookings.map Booking.status) = [none] ∧
    ((bookTrip store0 req0).2.bookings.map Booking.status) ≠ [some "confirmed"] := by
  refine ⟨rfl, rfl, by decide⟩

/-- C6 counterexample: the query origin "a." is not case-insensitively equal
to the stored origin "ab", yet search_trips selects that route (the dot is
interpolated into the regex and matches any character) and returns its
trip. -/
theorem search_not_exact_match_counterexample :
    ciEq "a." "ab" = false ∧
    matchedRoutes "a." "cd" [routeX] = [routeX] ∧
    (searchTrips storeX qDotOrigin).1 ≠ Outcome.ok [] := by
  refine ⟨by decide, by decide, by decide⟩

/-- C8 counterexample: with the store unreachable, a booking request for an
existing, well-formed trip identifier is answered with 404 Trip not found — a
domain error — rather than with the store failure propagated. -/
theorem store_failure_hidden_counterexample :
    storeDown.configured = true ∧ storeDown.reachable = false ∧
    trip0 ∈ storeDown.trips ∧ trip0.id = req0.trip_id ∧
    isValidObjectId req0.trip_id = true ∧
    (bookTrip storeDown req0).1 = Outcome.httpError 404 "Trip not found" := by
  refine ⟨rfl, rfl, by decide, rfl, by decide, rfl⟩

/-! Witnesses. -/

/-- C1 witness at a concrete store and operation sequence. -/
theorem booked_seats_never_exceed_capacity_witness :
    seatsFor trip0.id (applyBookings (initialStore [route0] [trip0]) [req0]).bookings ≤
      trip0.capacity.getD 0 :=
  booked_seats_never_exceed_capacity [route0] [trip0] [req0] (by decide) trip0 (by decide)

/-- C3 witness: booking 5 seats on the fresh 40-seat trip0. -/
theorem booking_within_availability_succeeds_witness :
    (bookTrip store0 req0).1 = Outcome.ok
        { status := "confirmed", booking_id := (newBookingOf store0 req0).id } ∧
    (bookTrip store0 req0).2.bookings = store0.bookings ++ [newBookingOf store0 req0] ∧
    (newBookingOf store0 req0).status = none ∧
    (newBookingOf store0 req0).seats = some req0.seats ∧
    availableSeats trip0.capacity
        ((bookTrip store0 req0).2.bookings.filter (fun b => b.trip_id == req0.trip_id)) =
      availableSeats trip0.capacity
        (store0.bookings.filter (fun b => b.trip_id == req0.trip_id)) - (req0.seats : Int) :=
  booking_within_availability_succeeds store0 req0 trip0 rfl (by decide)
    (by decide) (by decide) (by decide)

/-- C4 witness: requesting 50 seats on the fresh 40-seat trip0. -/
theorem overbooking_rejected_witness :
    bookTrip store0 reqBig = (Outcome.httpError 400
      ("Only " ++ toString (availableSeats trip0.capacity
          (store0.bookings.filter (fun b => b.trip_id == reqBig.trip_id))) ++ " seats available"),
      store0) :=
  overbooking_rejected store0 reqBig trip0 rfl (by decide) (by decide)

/-- C5 witness: booking the malformed trip identifier "zz". -/
theorem unknown_trip_not_found_witness :
    bookTrip store0 reqBad = (Outcome.httpError 404 "Trip not found", store0) :=
  unknown_trip_not_found store0 reqBad rfl (Or.inl (by decide))

/-- C6 witness: metacharacter-free city names select by case-insensitive
equality. -/
theorem search_matches_ci_equality_witness :
    matchedRoutes "new york" "boston" [route0] =
      [route0].filter (fun r => ciEq "new york" r.origin && ciEq "boston" r.destination) :=
  search_matches_ci_equality_without_metacharacters "new york" "boston" [route0]
    (by decide) (by decide)

/-- C7 witness: a search for an unserved city pair. -/
theorem no_route_match_short_circuits_witness :
    searchTrips store0 qNoMatch = (Outcome.ok [], ["busroute"]) :=
  no_route_match_short_circuits store0 qNoMatch rfl rfl (by decide)

/-- C8 witness: the unreachable store, observed on both operations. -/
theorem unreachable_store_behavior_witness :
    (searchTrips storeDown qNYBos).1 = Outcome.storeFailure ∧
    bookTrip storeDown req0 = (Outcome.httpError 404 "Trip not found", storeDown) :=
  unreachable_store_behavior storeDown qNYBos req0 rfl rfl

/-- C9 witness on store0 with a concrete non-empty email. -/
theorem empty_email_lists_all_bookings_witness :
    listBookings store0 (some "") = listBookings store0 none ∧
    listBookings store0 none = Outcome.ok store0.bookings ∧
    listBookings store0 (some "ada@example.com") =
      Outcome.ok (store0.bookings.filter (fun b => b.email == "ada@example.com")) :=
  empty_email_lists_all_bookings store0 "ada@example.com" rfl rfl (by decide)

/-- C10 witness: tripNoCap has no capacity field. -/
theorem missing_capacity_means_zero_availability_witness :
    (enrichTrip [route0] [] tripNoCap).available_seats = 0 ∧
    bookTrip storeNoCap reqNoCap =
      (Outcome.httpError 400 "Only 0 seats available", storeNoCap) :=
  missing_capacity_means_zero_availability storeNoCap reqNoCap tripNoCap [route0] []
    rfl (by decide) rfl (by decide)

end BusBooking
